import Mathlib

/-!
Verification of the crossup matchmaking and session-relay engine
(`main.go`).  The embedding models:

* the JSON values exchanged on the wire (`Json`),
* Go's `encoding/json` unmarshal semantics for the two payload structs
  used by `handleMessage` (missing fields keep their zero value; a
  present field of the wrong JSON kind is an error; `null` leaves the
  field untouched; object keys are matched exactly or case-insensitively,
  later duplicates winning),
* the shared `GameState` record and the dispatcher `handleMessage`,
* the `game_start` envelope construction and the dummy-puzzle fallback
  of `wsHandler`,
* the single-slot waiting queue (`waitingPlayer`) as the pair of atomic
  transitions performed under `waitingMutex`: the arrival decision and
  the disconnect-while-waiting cleanup.

Byte-level JSON parsing of the outer envelope is abstracted: a dispatched
message is represented already decoded as `{type, data}`, where `data` is
the raw payload (`none` when the `data` field was absent, in which case
the inner unmarshal fails exactly as `json.Unmarshal(nil, ...)` does).
`time.Time` values are abstracted as `Nat` tick counts.
-/

/-- A JSON value, the shape of every wire payload. -/
inductive Json where
  | null
  | bool (b : Bool)
  | num (n : Int)
  | str (s : String)
  | arr (elems : List Json)
  | obj (fields : List (String × Json))

/-- Field lookup in a JSON object: the first binding of the key, `none`
for missing keys and for non-objects. -/
def jsonField (j : Json) (k : String) : Option Json :=
  match j with
  | .obj fields => go fields
  | _ => none
where
  go : List (String × Json) → Option Json
    | [] => none
    | kv :: rest => if kv.1 = k then some kv.2 else go rest

/-- A decoded wire envelope (`Message` in `main.go`): the `type` tag and
the raw payload bytes (`json.RawMessage`), `none` when absent. -/
structure Message where
  type : String
  data : Option Json

/-- An envelope written to a connection by `sendMessage`: the tag and the
marshalled payload. -/
structure OutMsg where
  type : String
  data : Json

/-- The `board_update` payload struct of `handleMessage`. -/
structure BoardUpdateData where
  cell : String
  letter : String
deriving DecidableEq

/-- The `game_over` payload struct of `handleMessage`. -/
structure GameOverData where
  winner : String
deriving DecidableEq

/-- ASCII lower-casing of a character code, for case-insensitive key
matching (the struct field names involved are all ASCII). -/
def lowerCode (n : Nat) : Nat :=
  if 65 ≤ n && n ≤ 90 then n + 32 else n

/-- Go's struct-field key matching: exact match, or case-insensitive
match against the field's JSON name. -/
def goKeyMatches (k field : String) : Bool :=
  k == field ||
    (k.data.map fun c => lowerCode c.toNat)
      == (field.data.map fun c => lowerCode c.toNat)

/-- One step of Go's unmarshal into the `board_update` struct: apply one
object entry.  A matching key of the wrong JSON kind is an error (`none`),
`null` leaves the field at its current value, unknown keys are ignored. -/
def applyKeyBU (d : BoardUpdateData) (k : String) (v : Json) :
    Option BoardUpdateData :=
  if goKeyMatches k "cell" then
    match v with
    | .str s => some { d with cell := s }
    | .null => some d
    | _ => none
  else if goKeyMatches k "letter" then
    match v with
    | .str s => some { d with letter := s }
    | .null => some d
    | _ => none
  else some d

/-- Go's `json.Unmarshal` into `struct{Cell, Letter string}`: `null` is a
no-op on the zero value, an object is folded entry by entry (later
duplicates overwrite), anything else is an error.  A missing key keeps
the zero value `""` — missing fields are NOT unmarshal errors in Go. -/
def unmarshalBU : Json → Option BoardUpdateData
  | .null => some ⟨"", ""⟩
  | .obj fields =>
      fields.foldl (fun acc kv => acc.bind fun d => applyKeyBU d kv.1 kv.2)
        (some ⟨"", ""⟩)
  | _ => none

/-- One step of Go's unmarshal into the `game_over` struct. -/
def applyKeyGO (d : GameOverData) (k : String) (v : Json) :
    Option GameOverData :=
  if goKeyMatches k "winner" then
    match v with
    | .str s => some { d with winner := s }
    | .null => some d
    | _ => none
  else some d

/-- Go's `json.Unmarshal` into `struct{Winner string}`. -/
def unmarshalGO : Json → Option GameOverData
  | .null => some ⟨""⟩
  | .obj fields =>
      fields.foldl (fun acc kv => acc.bind fun d => applyKeyGO d kv.1 kv.2)
        (some ⟨""⟩)
  | _ => none

/-- Unmarshal of a raw payload that may be absent: `json.Unmarshal` on a
nil `RawMessage` fails with "unexpected end of JSON input". -/
def rawUnmarshalBU : Option Json → Option BoardUpdateData
  | none => none
  | some j => unmarshalBU j

/-- Unmarshal of a possibly absent `game_over` payload. -/
def rawUnmarshalGO : Option Json → Option GameOverData
  | none => none
  | some j => unmarshalGO j

/-- Re-marshal of the parsed `board_update` struct, as `sendMessage`
serialises it when forwarding (struct field order). -/
def marshalBU (d : BoardUpdateData) : Json :=
  .obj [("cell", .str d.cell), ("letter", .str d.letter)]

/-- Re-marshal of the parsed `game_over` struct. -/
def marshalGO (d : GameOverData) : Json :=
  .obj [("winner", .str d.winner)]

/-- The `Puzzle` record of `main.go` (grid, clues, answers); Go maps are
modelled as association lists. -/
structure Puzzle where
  grid : String
  clues : List (String × String)
  answers : List (String × String)
deriving DecidableEq

/-- The fallback puzzle `dummyPuzzle` of `main.go`, used whenever the
database connection or the puzzle load fails. -/
def dummyPuzzle : Puzzle :=
  { grid := "dummy grid layout"
  , clues := [("7-Across", "Example clue for 7-Across"),
              ("7-Down", "Example clue for 7-Down")]
  , answers := [("7-Across", "EXAMPLE"), ("7-Down", "EXAMPLE")] }

/-- The shared per-session `GameState` of `main.go`.  The two per-player
cell maps are association lists; `time.Time` is a `Nat` tick count. -/
structure GameState where
  puzzle : Puzzle
  player1State : List (String × String)
  player2State : List (String × String)
  startTime : Nat
  isFinished : Bool
deriving DecidableEq

/-- Go map assignment `m[k] = v` on the association-list model: replace
the binding of `k` in place, or append it. -/
def mapSet (m : List (String × String)) (k v : String) :
    List (String × String) :=
  match m with
  | [] => [(k, v)]
  | kv :: rest => if kv.1 = k then (k, v) :: rest else kv :: mapSet rest k v

/-- Go map read `m[k]` on the association-list model. -/
def mapGet (m : List (String × String)) (k : String) : Option String :=
  match m with
  | [] => none
  | kv :: rest => if kv.1 = k then some kv.2 else mapGet rest k

/-- The dispatcher `handleMessage` of `main.go`, modelled after envelope
decode.  Inputs: the decoded envelope, the shared state (`none` for the
nil `*GameState` of the waiting phase), the side label, and whether the
opponent connection is non-nil.  Result: the state after the call and
the list of envelopes written to the opponent connection. -/
def handleMessage (message : Message) (gameState : Option GameState)
    (playerID : String) (hasOpponent : Bool) :
    Option GameState × List OutMsg :=
  if message.type = "board_update" then
    match rawUnmarshalBU message.data with
    | none => (gameState, [])
    | some data =>
        let st :=
          match gameState with
          | none => none
          | some gs =>
            if playerID = "player1" then
              some { gs with
                player1State := mapSet gs.player1State data.cell data.letter }
            else if playerID = "player2" then
              some { gs with
                player2State := mapSet gs.player2State data.cell data.letter }
            else some gs
        (st, if hasOpponent then [⟨"board_update", marshalBU data⟩] else [])
  else if message.type = "heartbeat" then
    (gameState, [])
  else if message.type = "game_over" then
    match rawUnmarshalGO message.data with
    | none => (gameState, [])
    | some data =>
        (match gameState with
         | none => none
         | some gs => some { gs with isFinished := true },
         if hasOpponent then [⟨"game_over", marshalGO data⟩] else [])
  else
    (gameState, [])

/-- The state component of one dispatch, for iterating dispatches. -/
def stepState (message : Message) (playerID : String)
    (s : Option GameState) : Option GameState :=
  (handleMessage message s playerID true).1

/-- A whole sequence of dispatches (message together with the side it
came from), folded over the shared state. -/
def dispatchList (ms : List (Message × String)) (s : Option GameState) :
    Option GameState :=
  ms.foldl (fun acc mp => stepState mp.1 mp.2 acc) s

/-- The grid map owned by a side label. -/
def gridOf (gs : GameState) (playerID : String) :
    List (String × String) :=
  if playerID = "player1" then gs.player1State else gs.player2State

/-- The grid map of the opponent of a side label. -/
def opponentGridOf (gs : GameState) (playerID : String) :
    List (String × String) :=
  if playerID = "player1" then gs.player2State else gs.player1State

/-- A connected player (`Player` in `main.go`): the `RemoteAddr`-derived
identity and an abstract handle for its connection. -/
structure Player where
  id : String
  conn : Nat
deriving DecidableEq

/-- A formed match (`Match` in `main.go`). -/
structure GameMatch where
  player1 : Player
  player2 : Player
deriving DecidableEq

/-- The arrival decision of `wsHandler`, performed atomically under
`waitingMutex`: an empty slot stores the arrival and waits; an occupied
slot is cleared and its occupant becomes `Player1` of a match with the
arrival as `Player2`.  Result: the new slot and the formed match, if
any. -/
def offerPlayer (slot : Option Player) (p : Player) :
    Option Player × Option GameMatch :=
  match slot with
  | none => (some p, none)
  | some opponent => (none, some ⟨opponent, p⟩)

/-- The disconnect-while-waiting cleanup of `wsHandler`, performed
atomically under `waitingMutex`: the slot is cleared only when it still
holds a player with the disconnecting player's identity. -/
def clearOnDisconnect (slot : Option Player) (p : Player) :
    Option Player :=
  match slot with
  | none => none
  | some q => if q.id = p.id then none else some q

/-- Marshal of the `Puzzle` record, as `sendMessage` serialises it
(struct field order; Go map iteration order abstracted as list order). -/
def marshalPuzzle (p : Puzzle) : Json :=
  .obj [("grid", .str p.grid),
        ("clues", .obj (p.clues.map fun kv => (kv.1, .str kv.2))),
        ("answers", .obj (p.answers.map fun kv => (kv.1, .str kv.2)))]

/-- Marshal of the `startData` struct of `wsHandler`: the puzzle and the
session start time. -/
def marshalStartData (p : Puzzle) (startTime : Nat) : Json :=
  .obj [("puzzle", marshalPuzzle p), ("start_time", .num startTime)]

/-- The two start envelopes `wsHandler` sends when a match forms: one to
`Player1`, one to `Player2`, both tagged `game_start` and carrying the
loaded puzzle and the start time. -/
def matchStartMessages (p : Puzzle) (startTime : Nat) : List OutMsg :=
  [⟨"game_start", marshalStartData p startTime⟩,
   ⟨"game_start", marshalStartData p startTime⟩]

/-- The puzzle-selection logic of `wsHandler`: `ConnectDB` failure or
`LoadPuzzle` failure each fall back to `dummyPuzzle`; otherwise the
loaded puzzle is used.  The database handle is abstracted to `Unit`. -/
def resolvePuzzle (connectResult : Except String Unit)
    (loadResult : Except String Puzzle) : Puzzle :=
  match connectResult with
  | .error _ => dummyPuzzle
  | .ok _ =>
      match loadResult with
      | .error _ => dummyPuzzle
      | .ok p => p

/-- The fresh shared state `wsHandler` builds for a new match: the
resolved puzzle, empty grids, the current time, not finished. -/
def initialGameState (p : Puzzle) (now : Nat) : GameState :=
  { puzzle := p
  , player1State := []
  , player2State := []
  , startTime := now
  , isFinished := false }

/-- A concrete shared state used to instantiate theorems. -/
def sampleState : GameState := initialGameState dummyPuzzle 0

/-! ## Helper lemmas -/

/-- Reading back the key just written by Go map assignment. -/
theorem mapGet_mapSet (m : List (String × String)) (k v : String) :
    mapGet (mapSet m k v) k = some v := by
  induction m with
  | nil => simp [mapSet, mapGet]
  | cons kv rest ih =>
      by_cases h : kv.1 = k
      · simp [mapSet, mapGet, h]
      · simp [mapSet, mapGet, h, ih]

/-- Shape of one dispatch on a non-nil state: the state stays non-nil,
the puzzle, start time and the opponent's grid are untouched, and the
finished flag is either unchanged or set to `true` by a `game_over`. -/
theorem handleMessage_state_shape (message : Message) (gs : GameState)
    (pid : String) (opp : Bool) :
    ∃ gs', (handleMessage message (some gs) pid opp).1 = some gs' ∧
      gs'.puzzle = gs.puzzle ∧
      gs'.startTime = gs.startTime ∧
      opponentGridOf gs' pid = opponentGridOf gs pid ∧
      (gs'.isFinished = gs.isFinished ∨
        (message.type = "game_over" ∧ gs'.isFinished = true)) := by
  unfold handleMessage
  by_cases hbu : message.type = "board_update"
  · simp only [hbu, if_pos rfl]
    cases hd : rawUnmarshalBU message.data with
    | none => exact ⟨gs, rfl, rfl, rfl, rfl, Or.inl rfl⟩
    | some data =>
        by_cases h1 : pid = "player1"
        · subst h1
          exact ⟨_, rfl, rfl, rfl, rfl, Or.inl rfl⟩
        · by_cases h2 : pid = "player2"
          · subst h2
            exact ⟨_, rfl, rfl, rfl, rfl, Or.inl rfl⟩
          · simp only [if_neg h1, if_neg h2]
            exact ⟨gs, rfl, rfl, rfl, rfl, Or.inl rfl⟩
  · by_cases hhb : message.type = "heartbeat"
    · simp only [if_neg hbu, hhb, if_pos rfl]
      exact ⟨gs, rfl, rfl, rfl, rfl, Or.inl rfl⟩
    · by_cases hgo : message.type = "game_over"
      · simp only [if_neg hbu, if_neg hhb, hgo, if_pos rfl]
        cases hd : rawUnmarshalGO message.data with
        | none => exact ⟨gs, rfl, rfl, rfl, rfl, Or.inl rfl⟩
        | some data => exact ⟨_, rfl, rfl, rfl, rfl, Or.inr ⟨trivial, rfl⟩⟩
      · simp only [if_neg hbu, if_neg hhb, if_neg hgo]
        exact ⟨gs, rfl, rfl, rfl, rfl, Or.inl rfl⟩

/-- One dispatch preserves a finished state's finished flag. -/
theorem stepState_finished_mono (m : Message) (pid : String)
    (gs : GameState) (h : gs.isFinished = true) :
    ∃ gs', stepState m pid (some gs) = some gs' ∧ gs'.isFinished = true := by
  obtain ⟨gs', hstep, _, _, _, hfin⟩ := handleMessage_state_shape m gs pid true
  refine ⟨gs', hstep, ?_⟩
  rcases hfin with hfin | ⟨_, hfin⟩
  · rw [hfin, h]
  · exact hfin

/-! ## Claim theorems -/

/-- Claim C1: a well-formed `board_update` envelope with payload fields
`cell` and `letter`, dispatched for side X with a non-nil shared state
and a non-nil opponent channel, sets side X's grid map at `cell` to
`letter` and sends exactly one `board_update` envelope with identical
payload to the opponent channel. -/
theorem board_update_valid_dispatch (c l pid : String) (gs : GameState)
    (h : pid = "player1" ∨ pid = "player2") :
    ∃ gs',
      handleMessage
          ⟨"board_update", some (.obj [("cell", .str c), ("letter", .str l)])⟩
          (some gs) pid true
        = (some gs',
           [⟨"board_update", .obj [("cell", .str c), ("letter", .str l)]⟩]) ∧
      mapGet (gridOf gs' pid) c = some l := by
  rcases h with h | h <;> subst h
  · exact ⟨{ gs with player1State := mapSet gs.player1State c l }, rfl,
      by simpa [gridOf] using mapGet_mapSet gs.player1State c l⟩
  · exact ⟨{ gs with player2State := mapSet gs.player2State c l }, rfl,
      by simpa [gridOf] using mapGet_mapSet gs.player2State c l⟩

/-- Witness for C1 at a concrete cell, letter, side and state. -/
theorem board_update_valid_dispatch_witness :
    ∃ gs',
      handleMessage
          ⟨"board_update",
           some (.obj [("cell", .str "A1"), ("letter", .str "C")])⟩
          (some sampleState) "player1" true
        = (some gs',
           [⟨"board_update",
             .obj [("cell", .str "A1"), ("letter", .str "C")]⟩]) ∧
      mapGet (gridOf gs' "player1") "A1" = some "C" :=
  board_update_valid_dispatch "A1" "C" "player1" sampleState (Or.inl rfl)

/-- Counterexample to claim C2: a `board_update` payload missing the
`letter` field is NOT an unmarshal error in Go — it parses with
`Letter == ""`, so the grid IS mutated (the cell is set to the empty
string) and one envelope IS forwarded, contradicting "no grid mutation
and forwards nothing". -/
theorem board_update_missing_letter_mutates :
    handleMessage ⟨"board_update", some (.obj [("cell", .str "A1")])⟩
        (some sampleState) "player1" true
      = (some { sampleState with player1State := [("A1", "")] },
         [⟨"board_update", .obj [("cell", .str "A1"), ("letter", .str "")]⟩]) ∧
    (handleMessage ⟨"board_update", some (.obj [("cell", .str "A1")])⟩
        (some sampleState) "player1" true).1 ≠ some sampleState ∧
    (handleMessage ⟨"board_update", some (.obj [("cell", .str "A1")])⟩
        (some sampleState) "player1" true).2.length = 1 :=
  ⟨rfl, by decide, rfl⟩

/-- Amended claim C2: a `board_update` whose payload fails to unmarshal
for its type (a non-object payload, a `cell`/`letter` field of a
non-string JSON kind, or an absent `data` field) performs no grid
mutation and forwards nothing; the message is dropped with no partial
mutation and no error surfaced upward. -/
theorem board_update_parse_failure_drops (d : Option Json)
    (gs : Option GameState) (pid : String) (opp : Bool)
    (h : rawUnmarshalBU d = none) :
    handleMessage ⟨"board_update", d⟩ gs pid opp = (gs, []) := by
  simp [handleMessage, h]

/-- Witness for the amended C2 at a concrete non-object payload. -/
theorem board_update_parse_failure_drops_witness :
    rawUnmarshalBU (some (.str "oops")) = none ∧
    handleMessage ⟨"board_update", some (.str "oops")⟩
        (some sampleState) "player1" true
      = (some sampleState, []) :=
  ⟨rfl,
   board_update_parse_failure_drops (some (.str "oops")) (some sampleState)
     "player1" true rfl⟩

/-- Claim C3: a `game_over` from either side sets the finished flag to
`true` and forwards one `game_over` envelope to the opponent, and the
state effect is idempotent: dispatching the same `game_over` any
positive number of times yields exactly the state after a single one. -/
theorem game_over_sets_finished_idempotent (w pid : String)
    (gs : GameState) :
    handleMessage ⟨"game_over", some (.obj [("winner", .str w)])⟩
        (some gs) pid true
      = (some { gs with isFinished := true },
         [⟨"game_over", .obj [("winner", .str w)]⟩]) ∧
    ∀ n : Nat,
      (stepState ⟨"game_over", some (.obj [("winner", .str w)])⟩ pid)^[n + 1]
          (some gs)
        = some { gs with isFinished := true } := by
  refine ⟨rfl, ?_⟩
  intro n
  induction n with
  | zero => rfl
  | succ k ih =>
      rw [Function.iterate_succ_apply']
      rw [ih]
      rfl

/-- Counterexample to claim C4: the start envelope the server sends when
a session forms is tagged `game_start`, not `session_start`. -/
theorem start_envelope_tag_not_session_start :
    (matchStartMessages dummyPuzzle 0).map OutMsg.type
      = ["game_start", "game_start"] ∧
    "game_start" ≠ "session_start" :=
  ⟨rfl, by decide⟩

/-- Amended claim C4: when a session is formed, the server sends to both
sides an envelope whose type tag is `game_start`, carrying the puzzle
record and the session start time as its payload. -/
theorem start_envelope_game_start_both_sides (p : Puzzle) (t : Nat) :
    (matchStartMessages p t).length = 2 ∧
    (matchStartMessages p t).get? 0
      = some ⟨"game_start", marshalStartData p t⟩ ∧
    (matchStartMessages p t).get? 1
      = some ⟨"game_start", marshalStartData p t⟩ ∧
    jsonField (marshalStartData p t) "puzzle" = some (marshalPuzzle p) ∧
    jsonField (marshalStartData p t) "start_time" = some (.num t) :=
  ⟨rfl, rfl, rfl, rfl, rfl⟩

/-- Claim C5: when A arrives at an empty slot it waits without forming a
match; when B then arrives with no disconnect in between, the formed
match has exactly A as side one and B as side two, and the slot is left
empty; a later third arrival C merely becomes the new sole waiter and is
never paired with A. -/
theorem pairing_order_preserved (A B C : Player) :
    offerPlayer none A = (some A, none) ∧
    offerPlayer (offerPlayer none A).1 B = (none, some ⟨A, B⟩) ∧
    offerPlayer (offerPlayer (offerPlayer none A).1 B).1 C
      = (some C, none) :=
  ⟨rfl, rfl, rfl⟩

/-- Claim C6: the disconnect of the sole waiting participant clears the
waiting slot, but only when the slot still holds a player with that
participant's identity; a subsequent arrival then finds the slot empty
and waits rather than pairing with a stale entry. -/
theorem waiting_disconnect_clears_slot (p q c : Player)
    (h : q.id ≠ p.id) :
    clearOnDisconnect (some p) p = none ∧
    clearOnDisconnect (some q) p = some q ∧
    offerPlayer (clearOnDisconnect (some p) p) c = (some c, none) := by
  refine ⟨by simp [clearOnDisconnect], ?_, by simp [clearOnDisconnect, offerPlayer]⟩
  simp [clearOnDisconnect, h]

/-- Witness for C6 at concrete players. -/
theorem waiting_disconnect_clears_slot_witness :
    clearOnDisconnect (some ⟨"a", 0⟩) ⟨"a", 0⟩ = none ∧
    clearOnDisconnect (some ⟨"b", 1⟩) ⟨"a", 0⟩ = some ⟨"b", 1⟩ ∧
    offerPlayer (clearOnDisconnect (some ⟨"a", 0⟩) ⟨"a", 0⟩) ⟨"c", 2⟩
      = (some ⟨"c", 2⟩, none) :=
  waiting_disconnect_clears_slot ⟨"a", 0⟩ ⟨"b", 1⟩ ⟨"c", 2⟩ (by decide)

/-- Claim C7: if the database connection or the puzzle load fails, the
session still starts with the fixed `dummyPuzzle` — whose grid, clues
and answers are the constants below — and both start envelopes carry
that fallback puzzle. -/
theorem puzzle_fallback_on_failure (connectResult : Except String Unit)
    (loadResult : Except String Puzzle) (t : Nat)
    (h : (∃ e, connectResult = .error e) ∨ (∃ e, loadResult = .error e)) :
    resolvePuzzle connectResult loadResult = dummyPuzzle ∧
    dummyPuzzle.grid = "dummy grid layout" ∧
    dummyPuzzle.clues = [("7-Across", "Example clue for 7-Across"),
                         ("7-Down", "Example clue for 7-Down")] ∧
    dummyPuzzle.answers = [("7-Across", "EXAMPLE"), ("7-Down", "EXAMPLE")] ∧
    matchStartMessages (resolvePuzzle connectResult loadResult) t
      = [⟨"game_start", marshalStartData dummyPuzzle t⟩,
         ⟨"game_start", marshalStartData dummyPuzzle t⟩] := by
  have hr : resolvePuzzle connectResult loadResult = dummyPuzzle := by
    rcases h with ⟨e, he⟩ | ⟨e, he⟩
    · subst he; rfl
    · subst he
      cases connectResult with
      | error e => rfl
      | ok u => rfl
  exact ⟨hr, rfl, rfl, rfl, by rw [hr]; rfl⟩

/-- Witness for C7 at a concrete connection failure. -/
theorem puzzle_fallback_on_failure_witness :
    resolvePuzzle (.error "connection refused")
        (.ok { grid := "g", clues := [], answers := [] }) = dummyPuzzle ∧
    dummyPuzzle.grid = "dummy grid layout" ∧
    dummyPuzzle.clues = [("7-Across", "Example clue for 7-Across"),
                         ("7-Down", "Example clue for 7-Down")] ∧
    dummyPuzzle.answers = [("7-Across", "EXAMPLE"), ("7-Down", "EXAMPLE")] ∧
    matchStartMessages
        (resolvePuzzle (.error "connection refused")
          (.ok { grid := "g", clues := [], answers := [] })) 5
      = [⟨"game_start", marshalStartData dummyPuzzle 5⟩,
         ⟨"game_start", marshalStartData dummyPuzzle 5⟩] :=
  puzzle_fallback_on_failure (.error "connection refused")
    (.ok { grid := "g", clues := [], answers := [] }) 5
    (Or.inl ⟨"connection refused", rfl⟩)

/-- Claim C8: dispatching any envelope for side X on a non-nil state
never mutates the opponent's grid map, and no field of the shared state
other than side X's grid map and the finished flag changes — the puzzle
and the start time stay unchanged. -/
theorem dispatch_frame_condition (message : Message) (gs : GameState)
    (pid : String) (opp : Bool) :
    ∃ gs', (handleMessage message (some gs) pid opp).1 = some gs' ∧
      gs'.puzzle = gs.puzzle ∧
      gs'.startTime = gs.startTime ∧
      opponentGridOf gs' pid = opponentGridOf gs pid := by
  obtain ⟨gs', hstep, hpz, hst, hopp, _⟩ :=
    handleMessage_state_shape message gs pid opp
  exact ⟨gs', hstep, hpz, hst, hopp⟩

/-- Claim C9: dispatching any envelope with the nil shared state of the
pre-pairing waiting phase performs no state mutation (the state stays
nil, so `board_update` and `game_over` silently no-op on state), and a
`heartbeat` is tolerated with no effect at all. -/
theorem nil_state_dispatch_safe (message : Message) (pid : String)
    (opp : Bool) :
    (handleMessage message none pid opp).1 = none ∧
    (∀ d : Option Json,
      handleMessage ⟨"heartbeat", d⟩ none pid opp = (none, [])) := by
  constructor
  · unfold handleMessage
    by_cases hbu : message.type = "board_update"
    · simp only [hbu, if_pos rfl]
      cases hd : rawUnmarshalBU message.data with
      | none => rfl
      | some data => rfl
    · by_cases hhb : message.type = "heartbeat"
      · simp [if_neg hbu, hhb]
      · by_cases hgo : message.type = "game_over"
        · simp only [if_neg hbu, if_neg hhb, hgo, if_pos rfl]
          cases hd : rawUnmarshalGO message.data with
          | none => rfl
          | some data => rfl
        · simp only [if_neg hbu, if_neg hhb, if_neg hgo]
  · intro d
    rfl

/-- Claim C10: the finished flag is monotone — once the state's flag is
`true`, no sequence of further dispatches of any message types from
either side ever resets it — and each single dispatch either leaves the
flag unchanged or writes `true` (only `game_over` sets it). -/
theorem finished_flag_monotone (ms : List (Message × String))
    (gs : GameState) (h : gs.isFinished = true) :
    (∃ gs', dispatchList ms (some gs) = some gs' ∧
      gs'.isFinished = true) ∧
    (∀ (m : Message) (pid : String) (gs0 : GameState),
      ∃ gs1, stepState m pid (some gs0) = some gs1 ∧
        (gs1.isFinished = gs0.isFinished ∨ gs1.isFinished = true)) := by
  constructor
  · induction ms generalizing gs with
    | nil => exact ⟨gs, rfl, h⟩
    | cons mp rest ih =>
        obtain ⟨gs1, hstep, hfin⟩ := stepState_finished_mono mp.1 mp.2 gs h
        obtain ⟨gs', hrest, hfin'⟩ := ih gs1 hfin
        refine ⟨gs', ?_, hfin'⟩
        simpa [dispatchList, hstep] using hrest
  · intro m pid gs0
    obtain ⟨gs1, hstep, _, _, _, hfin⟩ :=
      handleMessage_state_shape m gs0 pid true
    refine ⟨gs1, hstep, ?_⟩
    rcases hfin with hfin | ⟨_, hfin⟩
    · exact Or.inl hfin
    · exact Or.inr hfin

/-- Witness for C10: a finished state stays finished across a concrete
dispatch sequence containing every message kind. -/
theorem finished_flag_monotone_witness :
    (∃ gs', dispatchList
        [(⟨"board_update",
           some (.obj [("cell", .str "A1"), ("letter", .str "X")])⟩,
          "player2"),
         (⟨"heartbeat", none⟩, "player1"),
         (⟨"game_over", some (.obj [("winner", .str "player1")])⟩,
          "player1"),
         (⟨"mystery", none⟩, "player2")]
        (some { sampleState with isFinished := true }) = some gs' ∧
      gs'.isFinished = true) ∧
    (∀ (m : Message) (pid : String) (gs0 : GameState),
      ∃ gs1, stepState m pid (some gs0) = some gs1 ∧
        (gs1.isFinished = gs0.isFinished ∨ gs1.isFinished = true)) :=
  finished_flag_monotone
    [(⟨"board_update",
       some (.obj [("cell", .str "A1"), ("letter", .str "X")])⟩,
      "player2"),
     (⟨"heartbeat", none⟩, "player1"),
     (⟨"game_over", some (.obj [("winner", .str "player1")])⟩,
      "player1"),
     (⟨"mystery", none⟩, "player2")]
    { sampleState with isFinished := true } rfl
